import Mathlib

/-!
Shallow embedding of the flow-generator client core
(`cmd/client/main.go` of PhilipSchmid/flow-generator-app) and proofs about
its scheduling, payload, port-selection and randomness behaviour.

The embedding follows the full-featured client `main.go` (the version with
`flow_count`, `flow_timeout` and `constant_flows`): pure helper functions are
translated directly; the scheduler loop is embedded as a step relation over an
explicit state; the values produced by the shared `rand.Rand` are either taken
as explicit parameters (with their Go-side bounds as hypotheses) or, where a
concrete stream is needed, computed by a faithful model of Go's
`math/rand/v2` PCG-DXSM generator seeded with `NewPCG(0, 0)`.
-/

set_option autoImplicit false

namespace FlowGen

/-! ## Data model -/

/-- ProtocolPort combines a protocol and its associated port
(`cmd/client/main.go`). -/
structure ProtocolPort where
  protocol : String
  port : Int
deriving DecidableEq, Repr

/-! ## Port parsing and selection -/

/-- Embeds `parsePorts` (`cmd/client/main.go` 408-423).  Each comma-separated
token of the input string is represented by its `strconv.Atoi` outcome
(`none` when parsing failed); tokens that parsed to a port in `1..65535` are
kept in input order, every other token is dropped (with a warning). -/
def parsePorts (tokens : List (Option Int)) : List Int :=
  tokens.foldl
    (fun ports t =>
      match t with
      | some port => if port > 0 && port ≤ 65535 then ports ++ [port] else ports
      | none => ports)
    []

/-- Embeds the `availablePorts` construction in `main`
(`cmd/client/main.go` 498-509): all TCP ports are appended (in configured
order) when the protocol filter is `tcp` or `both`, then all UDP ports when
the filter is `udp` or `both`. -/
def buildAvailablePorts (protocol : String) (tcpPorts udpPorts : List Int) :
    List ProtocolPort :=
  let ps : List ProtocolPort := []
  let ps := if protocol == "tcp" || protocol == "both" then
      tcpPorts.foldl (fun acc p => acc ++ [⟨"tcp", p⟩]) ps
    else ps
  let ps := if protocol == "udp" || protocol == "both" then
      udpPorts.foldl (fun acc p => acc ++ [⟨"udp", p⟩]) ps
    else ps
  ps

/-! ## Payload size selection and cache slicing -/

/-- Embeds `getPayloadSize` (`cmd/client/main.go` 284-294): the fixed
`payload_size` when it is positive, otherwise
`min_payload_size + src.IntN(max_payload_size - min_payload_size + 1)` when
`min_payload_size > 0` and `max_payload_size > min_payload_size`, otherwise
the default `5`.  The argument `intN` stands for the bound-to-value function
realised by `src.IntN`; the theorems constrain it to `0 ≤ intN n < n`. -/
def getPayloadSize (payloadSizeCfg minSize maxSize : Int) (intN : Int → Int) :
    Int :=
  if payloadSizeCfg > 0 then payloadSizeCfg
  else if minSize > 0 && maxSize > minSize then
    minSize + intN (maxSize - minSize + 1)
  else 5

/-- Embeds the payload-size capping and cache slicing in `generateFlow`
(`cmd/client/main.go` 300-304): the requested size is capped at the cache
length and the transmitted payload is the prefix of the cache of the capped
length. -/
def slicePayload (cache : List Nat) (payloadSize : Int) : List Nat :=
  let size := if payloadSize > (cache.length : Int) then (cache.length : Int)
    else payloadSize
  cache.take size.toNat

/-! ## Flow duration -/

/-- Embeds the duration computation in the admission goroutine
(`cmd/client/main.go` 551-561): `maxConcurrent / rate` in constant-flow mode,
otherwise `minDuration + src.Float64() * (maxDuration - minDuration)` where
`r` stands for the `src.Float64()` value (which lies in `[0, 1)`). -/
def flowDuration (constantFlows : Bool) (maxConcurrent : Int)
    (rate minDuration maxDuration r : ℚ) : ℚ :=
  if constantFlows then (maxConcurrent : ℚ) / rate
  else minDuration + r * (maxDuration - minDuration)

/-- Embeds the warning branch of the constant-flow computation
(`cmd/client/main.go` 554-557): a warning is logged exactly when the computed
duration `maxConcurrent / rate` is below `minDuration`; the duration itself is
used unchanged. -/
def constantFlowWarned (constantFlows : Bool) (maxConcurrent : Int)
    (rate minDuration : ℚ) : Bool :=
  constantFlows && decide ((maxConcurrent : ℚ) / rate < minDuration)

/-! ## Flow executor (TCP path and UDP send loop) -/

/-- Outcome of one flow execution, as recorded by `generateFlow`.  The Go
function returns nothing; the outcome is visible only in logs. -/
inductive FlowOutcome
  | completed
  | dialFailed
  | writeFailed
deriving DecidableEq, Repr

/-- Environment of one flow execution: whether the dial and the first write
succeed. -/
structure FlowEnv where
  dialOk : Bool
  writeOk : Bool
deriving DecidableEq, Repr

/-- Observable trace of one flow execution: how many dial attempts and write
attempts `generateFlow` makes, and its outcome. -/
structure FlowTrace where
  dialAttempts : Nat
  writeAttempts : Nat
  outcome : FlowOutcome
deriving DecidableEq, Repr

/-- Embeds the TCP branch of `generateFlow` (`cmd/client/main.go` 314-352):
dial exactly once; on dial failure log a warning and return before any write
(no retry); on write failure log and return; otherwise proceed to
completion. -/
def generateFlowTCP (env : FlowEnv) : FlowTrace :=
  if !env.dialOk then ⟨1, 0, .dialFailed⟩
  else if !env.writeOk then ⟨1, 1, .writeFailed⟩
  else ⟨1, 1, .completed⟩

/-- Environment of one iteration of the UDP send loop: whether `conn.Write`
succeeds and whether the flow's context is done when (and if) the iteration
reaches the `select`. -/
structure UdpIterEnv where
  writeOk : Bool
  ctxDone : Bool
deriving DecidableEq, Repr

/-- Result of one iteration of the UDP send loop body. -/
inductive UdpIterResult
  | skippedMtu
  | skippedWriteError
  | sentThenWaited
  | sentThenCancelled
deriving DecidableEq, Repr

/-- Embeds one iteration of the UDP send-loop body
(`cmd/client/main.go` 364-402): when the payload exceeds the MTU, warn and
`continue`; when the write fails, warn and `continue`; otherwise send, read
the reply, and reach the `select` that races a 100ms timer against
`flowCtx.Done()` (returning early when the context is done). -/
def udpIter (payloadLen mtu : Nat) (env : UdpIterEnv) : UdpIterResult :=
  if payloadLen > mtu then .skippedMtu
  else if !env.writeOk then .skippedWriteError
  else if env.ctxDone then .sentThenCancelled
  else .sentThenWaited

/-- Whether a UDP loop iteration reached the 100ms-versus-cancellation race
(the `select` at `cmd/client/main.go` 396-401). -/
def reachesCancellationRace : UdpIterResult → Bool
  | .sentThenWaited => true
  | .sentThenCancelled => true
  | .skippedMtu => false
  | .skippedWriteError => false

/-- Whether a run of UDP loop iterations (one `UdpIterEnv` per iteration of
the duration-bounded `for` loop) exits the loop early via the cancellation
branch of the `select`. -/
def udpLoopReturnsEarly (payloadLen mtu : Nat) (envs : List UdpIterEnv) :
    Bool :=
  envs.any (fun e => udpIter payloadLen mtu e == .sentThenCancelled)

/-- Embeds the UDP branch of `generateFlow` (`cmd/client/main.go` 353-404):
dial exactly once; on dial failure log and return before any write; otherwise
run the send loop, whose iterations attempt a write exactly when the payload
fits in the MTU. -/
def generateFlowUDP (env : FlowEnv) (payloadLen mtu : Nat)
    (iterations : Nat) : FlowTrace :=
  if !env.dialOk then ⟨1, 0, .dialFailed⟩
  else ⟨1, if payloadLen ≤ mtu then iterations else 0, .completed⟩

/-- Dispatch on `pp.Protocol` as in `generateFlow`: the `tcp` branch, else the
`udp` branch. -/
def generateFlowTrace (protocol : String) (env : FlowEnv)
    (payloadLen mtu iterations : Nat) : FlowTrace :=
  if protocol == "tcp" then generateFlowTCP env
  else generateFlowUDP env payloadLen mtu iterations

/-! ## The flow scheduler as a step relation

The admission loop of `main` (`cmd/client/main.go` 535-574) is embedded as a
deterministic step function over an explicit scheduler state, driven by a
list of events.  Each event is one arm of the loop's `select` (a ticker fire
or the `mainCtx.Done()` branch), the firing of the `flow_timeout` deadline,
or the completion of an in-flight flow goroutine (whose deferred `<-sem`
releases its concurrency slot). -/

/-- One in-flight flow: the time at which its goroutine was spawned and its
computed duration.  Its context is `context.WithTimeout(mainCtx, duration)`,
a child of the main context with deadline `admittedAt + duration`. -/
structure Flow where
  admittedAt : ℚ
  duration : ℚ
deriving DecidableEq, Repr

/-- Scheduler configuration: `flow_count` (0 = unlimited), `max_concurrent`
(the semaphore capacity), `flow_timeout` (0 = no timeout). -/
structure Config where
  flowCount : Nat
  maxConcurrent : Nat
  flowTimeout : ℚ
deriving DecidableEq, Repr

/-- Scheduler state: the atomic `flowCounter`, the in-flight flows (each one
holds one semaphore slot and one WaitGroup unit), whether `cancel()` has been
called, whether the `flow_timeout` deadline has fired, and whether the loop
has taken the `mainCtx.Done()` branch (stopping the ticker and draining). -/
structure SchedState where
  flowCounter : Nat
  flows : List Flow
  mainCancelled : Bool
  timedOut : Bool
  tickerStopped : Bool
deriving DecidableEq, Repr

/-- Initial scheduler state. -/
def initState : SchedState := ⟨0, [], false, false, false⟩

/-- `mainCtx.Done()` is closed exactly when `cancel()` was called or the
`flow_timeout` deadline fired. -/
def mainDone (s : SchedState) : Bool := s.mainCancelled || s.timedOut

/-- A flow's child context (`context.WithTimeout(mainCtx, duration)`) is done
at time `now` exactly when the main context is done (parent cancellation
propagates to every child) or the flow's own deadline has passed. -/
def flowCtxDone (s : SchedState) (f : Flow) (now : ℚ) : Bool :=
  mainDone s || decide (f.admittedAt + f.duration ≤ now)

/-- Events driving the scheduler loop. -/
inductive Ev
  | tick (now dur : ℚ)
  | timeoutFired
  | doneBranch
  | complete (k : Nat) (o : FlowOutcome)
deriving DecidableEq, Repr

/-- One step of the scheduler (`cmd/client/main.go` 535-574).

`tick now dur`: the ticker fired at time `now` (ticks no longer occur once
the loop has returned).  First the `flow_count` check: when a limit is set
and `flowCounter` has reached it, log, call `cancel()` and `continue` —
admitting nothing.  Otherwise try a non-blocking semaphore acquire: when a
slot is free, increment `flowCounter`, `wg.Add(1)` and spawn the flow
goroutine (which will draw its port, duration `dur` and payload size);
when the semaphore is full, log at debug level and skip the tick — nothing
is queued.

`timeoutFired`: the `flow_timeout` deadline fired (only applied when a
positive timeout was configured).

`doneBranch`: the loop's `select` took `<-mainCtx.Done()`: stop the ticker
and begin draining (`wg.Wait`).

`complete k o`: the `k`-th in-flight flow goroutine finished with outcome
`o`; its deferred `<-sem` releases exactly its slot.  The outcome is not
inspected: `generateFlow` returns nothing to the scheduler. -/
def step (cfg : Config) (s : SchedState) : Ev → SchedState
  | .tick now dur =>
    if s.tickerStopped then s
    else if 0 < cfg.flowCount ∧ cfg.flowCount ≤ s.flowCounter then
      { s with mainCancelled := true }
    else if s.flows.length < cfg.maxConcurrent then
      { s with flowCounter := s.flowCounter + 1,
               flows := s.flows ++ [⟨now, dur⟩] }
    else s
  | .timeoutFired => if 0 < cfg.flowTimeout then { s with timedOut := true } else s
  | .doneBranch => if mainDone s then { s with tickerStopped := true } else s
  | .complete k _ => { s with flows := s.flows.eraseIdx k }

/-- The scheduler state after a sequence of events, from the initial state. -/
def run (cfg : Config) (evs : List Ev) : SchedState :=
  evs.foldl (step cfg) initState

/-! ## Go's math/rand/v2 PCG and the shared random source

Both the payload-cache `init` (`cmd/client/main.go` 265-271) and the
scheduler (`cmd/client/main.go` 533) seed their source with
`rand.New(rand.NewPCG(0, 0))`.  Go's PCG keeps a 128-bit state (seeded here
with 0), advances it by `state * mul + inc (mod 2^128)` and produces each
`Uint64` through the DXSM output function.  For a power-of-two bound `n`,
`IntN n` consumes exactly one `Uint64` `u` and returns `u & (n-1)`
(the fast path of `uint64n`), and `Float64` also consumes exactly one
`Uint64`. -/

/-- The 128-bit PCG multiplier of Go's `math/rand/v2` (`pcg.go`,
`mulHi * 2^64 + mulLo`). -/
def pcgMul : Nat := 2549297995355413924 * 2 ^ 64 + 4865540595714422341

/-- The 128-bit PCG increment of Go's `math/rand/v2` (`pcg.go`,
`incHi * 2^64 + incLo`). -/
def pcgInc : Nat := 6364136223846793005 * 2 ^ 64 + 1442695040888963407

/-- One state update of Go's PCG (`PCG.next`): `state * mul + inc`
modulo `2^128`. -/
def pcgStep (s : Nat) : Nat := (s * pcgMul + pcgInc) % 2 ^ 128

/-- The PCG state after `k` updates from the `NewPCG(0, 0)` seed state 0. -/
def pcgState : Nat → Nat
  | 0 => 0
  | k + 1 => pcgStep (pcgState k)

/-- The DXSM output function of `PCG.Uint64`: split the state into `hi`/`lo`
64-bit halves, then `hi ^= hi >> 32; hi *= cheapMul; hi ^= hi >> 48;
hi *= lo | 1` with all products modulo `2^64`. -/
def pcgOut (s : Nat) : Nat :=
  let hi := s / 2 ^ 64
  let lo := s % 2 ^ 64
  let hi := hi ^^^ (hi >>> 32)
  let hi := (hi * 0xda942042e4dd58b5) % 2 ^ 64
  let hi := hi ^^^ (hi >>> 48)
  (hi * (lo ||| 1)) % 2 ^ 64

/-- The `k`-th (0-based) `Uint64` drawn from
`rand.New(rand.NewPCG(0, 0))`: `next()` advances the state before the output
function is applied. -/
def pcgU64 (k : Nat) : Nat := pcgOut (pcgState (k + 1))

/-- `IntN n` for a power-of-two bound `n`: the drawn `Uint64` masked by
`n - 1` (the `n&(n-1) == 0` fast path of `uint64n`). -/
def intNPow2 (u n : Nat) : Nat := u &&& (n - 1)

/-- Embeds `init` (`cmd/client/main.go` 265-271): the `i`-th payload-cache
byte is `byte(src.IntN(256))` for the `i`-th draw from the fresh
`PCG(0, 0)` source; `IntN 256` takes the power-of-two fast path, so the byte
is the low 8 bits of the `i`-th `Uint64`. -/
def payloadCacheByte (i : Nat) : Nat := intNPow2 (pcgU64 i) 256

/-- A restart of the process re-executes `init` with the same fixed
`NewPCG(0, 0)` seed; this is the cache-byte function of the second run. -/
def payloadCacheByteRestart (i : Nat) : Nat := intNPow2 (pcgU64 i) 256

/-! ### Concurrent draws from the shared scheduler source

The scheduler's `src` is shared, without synchronization, between all
admission goroutines: each spawned goroutine draws its port index
(`src.IntN(len(availablePorts))`), then its duration (`src.Float64()`), and —
when a dynamic payload range is configured — its payload size inside
`getPayloadSize` (`src.IntN(maxSize-minSize+1)`).  The global order in which
these concurrent draws hit the source is an interleaving (a schedule), and
each draw consumes one `Uint64` of the PCG stream.  The concrete
configuration modelled here makes every draw consume exactly one `Uint64`:
a single available port (`IntN 1` masks with 0), `Float64`, and a payload
range `min_payload_size = 1`, `max_payload_size = 256` (`IntN 256` masks with
255). -/

/-- One draw request against the shared source, tagged by the flow goroutine
that issues it. -/
inductive Draw
  | portDraw (i : Nat)
  | durDraw (i : Nat)
  | sizeDraw (i : Nat)
deriving DecidableEq, Repr

/-- The position of a draw in a schedule (the global interleaving order of
the concurrent accesses to the shared source). -/
def drawPosition (sched : List Draw) (d : Draw) : Option Nat :=
  sched.indexOf? d

/-- A schedule respects flow `i`'s program order when flow `i` draws its
port, then its duration, then its payload size. -/
def schedOrdered (sched : List Draw) (i : Nat) : Bool :=
  match drawPosition sched (.portDraw i), drawPosition sched (.durDraw i),
      drawPosition sched (.sizeDraw i) with
  | some a, some b, some c => decide (a < b) && decide (b < c)
  | _, _, _ => false

/-- The payload size selected by flow `i` under schedule `sched` with the
configuration `payload_size = 0`, `min_payload_size = 1`,
`max_payload_size = 256`: `getPayloadSize` evaluates
`1 + src.IntN(256)` on the `Uint64` at flow `i`'s size-draw position. -/
def flowPayloadSizeAt (sched : List Draw) (i : Nat) : Option Nat :=
  (drawPosition sched (.sizeDraw i)).map (fun p => 1 + intNPow2 (pcgU64 p) 256)

/-- The same selection function as executed by a restarted process (second
run, same fixed seed). -/
def flowPayloadSizeAtRestart (sched : List Draw) (i : Nat) : Option Nat :=
  (drawPosition sched (.sizeDraw i)).map (fun p => 1 + intNPow2 (pcgU64 p) 256)

/-! ## Helper lemmas about the scheduler step relation -/

theorem step_counter_mono (cfg : Config) (s : SchedState) (e : Ev) :
    s.flowCounter ≤ (step cfg s e).flowCounter := by
  cases e with
  | tick now dur => simp only [step]; split_ifs <;> simp
  | timeoutFired => simp only [step]; split_ifs <;> simp
  | doneBranch => simp only [step]; split_ifs <;> simp
  | complete k o => simp [step]

theorem foldl_counter_mono (cfg : Config) (evs : List Ev) (s : SchedState) :
    s.flowCounter ≤ (evs.foldl (step cfg) s).flowCounter := by
  induction evs generalizing s with
  | nil => simp
  | cons e t ih => exact le_trans (step_counter_mono cfg s e) (ih _)

theorem run_counter_mono (cfg : Config) (evs tail : List Ev) :
    (run cfg evs).flowCounter ≤ (run cfg (evs ++ tail)).flowCounter := by
  simp only [run, List.foldl_append]
  exact foldl_counter_mono cfg tail _

theorem step_counter_le (cfg : Config) (s : SchedState) (e : Ev)
    (hK : 0 < cfg.flowCount) (h : s.flowCounter ≤ cfg.flowCount) :
    (step cfg s e).flowCounter ≤ cfg.flowCount := by
  cases e with
  | tick now dur => simp only [step]; split_ifs <;> simp_all; omega
  | timeoutFired => simp only [step]; split_ifs <;> simp_all
  | doneBranch => simp only [step]; split_ifs <;> simp_all
  | complete k o => simpa [step] using h

theorem foldl_counter_le (cfg : Config) (evs : List Ev) (s : SchedState)
    (hK : 0 < cfg.flowCount) (h : s.flowCounter ≤ cfg.flowCount) :
    (evs.foldl (step cfg) s).flowCounter ≤ cfg.flowCount := by
  induction evs generalizing s with
  | nil => simpa
  | cons e t ih => exact ih _ (step_counter_le cfg s e hK h)

theorem run_counter_le (cfg : Config) (evs : List Ev) (hK : 0 < cfg.flowCount) :
    (run cfg evs).flowCounter ≤ cfg.flowCount :=
  foldl_counter_le cfg evs initState hK (by simp [initState])

theorem step_flows_le (cfg : Config) (s : SchedState) (e : Ev)
    (h : s.flows.length ≤ cfg.maxConcurrent) :
    (step cfg s e).flows.length ≤ cfg.maxConcurrent := by
  cases e with
  | tick now dur => simp only [step]; split_ifs <;> simp_all; omega
  | timeoutFired => simp only [step]; split_ifs <;> simp_all
  | doneBranch => simp only [step]; split_ifs <;> simp_all
  | complete k o => exact le_trans (List.length_eraseIdx_le _ _) h

theorem foldl_flows_le (cfg : Config) (evs : List Ev) (s : SchedState)
    (h : s.flows.length ≤ cfg.maxConcurrent) :
    ((evs.foldl (step cfg) s).flows.length ≤ cfg.maxConcurrent) := by
  induction evs generalizing s with
  | nil => simpa
  | cons e t ih => exact ih _ (step_flows_le cfg s e h)

theorem run_flows_le (cfg : Config) (evs : List Ev) :
    (run cfg evs).flows.length ≤ cfg.maxConcurrent :=
  foldl_flows_le cfg evs initState (by simp [initState])

theorem step_nontick_counter (cfg : Config) (s : SchedState) (e : Ev)
    (h : ∀ now dur, e ≠ Ev.tick now dur) :
    (step cfg s e).flowCounter = s.flowCounter := by
  cases e with
  | tick now dur => exact absurd rfl (h now dur)
  | timeoutFired => simp only [step]; split_ifs <;> rfl
  | doneBranch => simp only [step]; split_ifs <;> rfl
  | complete k o => rfl

theorem tick_at_limit (cfg : Config) (s : SchedState) (now dur : ℚ)
    (hK : 0 < cfg.flowCount) (hc : cfg.flowCount ≤ s.flowCounter)
    (ht : s.tickerStopped = false) :
    step cfg s (.tick now dur) = { s with mainCancelled := true } := by
  simp [step, ht, hK, hc]

theorem tick_at_capacity (cfg : Config) (s : SchedState) (now dur : ℚ)
    (hfull : s.flows.length = cfg.maxConcurrent)
    (hnolimit : ¬(0 < cfg.flowCount ∧ cfg.flowCount ≤ s.flowCounter)) :
    step cfg s (.tick now dur) = s := by
  simp only [step]
  split_ifs with h1 h2
  · rfl
  · exact absurd h2 (by omega)
  · rfl

theorem complete_releases (cfg : Config) (s : SchedState) (k : Nat)
    (o : FlowOutcome) (hk : k < s.flows.length) :
    (step cfg s (.complete k o)).flows.length + 1 = s.flows.length := by
  simp only [step, List.length_eraseIdx]
  rw [if_pos hk]
  omega

/-! ## Helper lemmas about port parsing and selection -/

theorem foldl_append_singleton {α β : Type} (f : α → β) (l : List α)
    (acc : List β) :
    l.foldl (fun a p => a ++ [f p]) acc = acc ++ l.map f := by
  induction l generalizing acc with
  | nil => simp
  | cons x t ih => simp [ih]

theorem buildAvailablePorts_eq (protocol : String) (tcp udp : List Int) :
    buildAvailablePorts protocol tcp udp =
      (if protocol == "tcp" || protocol == "both" then
        tcp.map (fun p => (⟨"tcp", p⟩ : ProtocolPort)) else [])
      ++ (if protocol == "udp" || protocol == "both" then
        udp.map (fun p => (⟨"udp", p⟩ : ProtocolPort)) else []) := by
  simp only [buildAvailablePorts]
  split_ifs <;> simp [foldl_append_singleton]

theorem parsePorts_foldl (tokens : List (Option Int)) (acc : List Int) :
    tokens.foldl
      (fun ports t =>
        match t with
        | some port =>
          if port > 0 && port ≤ 65535 then ports ++ [port] else ports
        | none => ports)
      acc
    = acc ++ (tokens.filterMap id).filter (fun p => p > 0 && p ≤ 65535) := by
  induction tokens generalizing acc with
  | nil => simp
  | cons t ts ih =>
    rw [List.foldl_cons]
    cases t with
    | none =>
      rw [ih]
      rfl
    | some p =>
      rw [ih]
      by_cases h : (p > 0 && p ≤ 65535) = true
      · simp [h, List.filter_cons]
      · simp [h, List.filter_cons]

theorem parsePorts_eq (tokens : List (Option Int)) :
    parsePorts tokens =
      (tokens.filterMap id).filter (fun p => p > 0 && p ≤ 65535) :=
  (parsePorts_foldl tokens []).trans (List.nil_append _)

/-! ## Claim C1 -/

/-- C1 counterexample: with `flow_count = 1`, the flow admitted at time 0
with duration 100 is still in flight at time 2 (since `2 < 0 + 100`), yet the
limit-reached tick at time 2 calls `cancel()` on the main context and —
because each flow's context is a child of the main context — the in-flight
flow's cancellation scope fires immediately (it was not yet fired before that
tick).  This refutes the claim that reaching the limit "does not cancel
in-flight flows' cancellation scopes". -/
theorem c1_counterexample :
    (run ⟨1, 3, 0⟩ [.tick 0 100, .tick 2 7]).flows = [⟨0, 100⟩] ∧
    (run ⟨1, 3, 0⟩ [.tick 0 100, .tick 2 7]).mainCancelled = true ∧
    flowCtxDone (run ⟨1, 3, 0⟩ [.tick 0 100, .tick 2 7]) ⟨0, 100⟩ 2 = true ∧
    ((2 : ℚ) < 0 + 100) ∧
    flowCtxDone (run ⟨1, 3, 0⟩ [.tick 0 100]) ⟨0, 100⟩ 2 = false := by
  norm_num [run, step, initState, flowCtxDone, mainDone]

/-- C1 (amended): when the configured flow_count limit has been reached, the
next tick stops admission (counter and in-flight list unchanged) by calling
`cancel()` on the main context; since every flow's context is a child of the
main context, this immediately fires every in-flight flow's cancellation
scope — the same hard-stop mechanism as flow_timeout expiry — and the
scheduler then only awaits the flow goroutines (`wg.Wait`) rather than
letting them run to their own durations. -/
theorem c1_flow_count_limit_cancels_in_flight (cfg : Config) (s : SchedState)
    (now dur : ℚ) (hK : 0 < cfg.flowCount)
    (hc : cfg.flowCount ≤ s.flowCounter) (ht : s.tickerStopped = false) :
    (step cfg s (.tick now dur)).mainCancelled = true ∧
    (step cfg s (.tick now dur)).flowCounter = s.flowCounter ∧
    (step cfg s (.tick now dur)).flows = s.flows ∧
    ∀ f ∈ (step cfg s (.tick now dur)).flows,
      flowCtxDone (step cfg s (.tick now dur)) f now = true := by
  rw [tick_at_limit cfg s now dur hK hc ht]
  exact ⟨rfl, rfl, rfl, fun f _ => by simp [flowCtxDone, mainDone]⟩

/-- Witness for C1: the amended theorem applied at a concrete scheduler state
holding one in-flight flow, with `flow_count = 1` already reached. -/
theorem c1_witness :
    (step ⟨1, 3, 0⟩ ⟨1, [⟨0, 5⟩], false, false, false⟩ (.tick 2 7)).mainCancelled = true ∧
    (step ⟨1, 3, 0⟩ ⟨1, [⟨0, 5⟩], false, false, false⟩ (.tick 2 7)).flowCounter =
      (⟨1, [⟨0, 5⟩], false, false, false⟩ : SchedState).flowCounter ∧
    (step ⟨1, 3, 0⟩ ⟨1, [⟨0, 5⟩], false, false, false⟩ (.tick 2 7)).flows =
      (⟨1, [⟨0, 5⟩], false, false, false⟩ : SchedState).flows ∧
    ∀ f ∈ (step ⟨1, 3, 0⟩ ⟨1, [⟨0, 5⟩], false, false, false⟩ (.tick 2 7)).flows,
      flowCtxDone (step ⟨1, 3, 0⟩ ⟨1, [⟨0, 5⟩], false, false, false⟩ (.tick 2 7)) f 2 = true :=
  c1_flow_count_limit_cancels_in_flight ⟨1, 3, 0⟩
    ⟨1, [⟨0, 5⟩], false, false, false⟩ 2 7 (by norm_num) (by norm_num) rfl

/-! ## Claim C2 -/

/-- C2 counterexample: with `flow_count = 1`, the flow admitted at time 0
with duration 10 is still within its duration at time 1 (`1 < 0 + 10`), but
the flow-count check at the tick at time 1 cancels the main context and the
flow's cancellation scope fires — so a flow admitted before the limit was
reached does *not* "continue unaffected by the check itself". -/
theorem c2_counterexample :
    (run ⟨1, 2, 0⟩ [.tick 0 10, .tick 1 5]).flows = [⟨0, 10⟩] ∧
    (run ⟨1, 2, 0⟩ [.tick 0 10, .tick 1 5]).mainCancelled = true ∧
    flowCtxDone (run ⟨1, 2, 0⟩ [.tick 0 10, .tick 1 5]) ⟨0, 10⟩ 1 = true ∧
    ((1 : ℚ) < 0 + 10) ∧
    flowCtxDone (run ⟨1, 2, 0⟩ [.tick 0 10]) ⟨0, 10⟩ 1 = false := by
  norm_num [run, step, initState, flowCtxDone, mainDone]

/-- C2 (amended): for every configured `flow_count = K > 0` the scheduler
admits at most K flows in total — the admitted-flow counter is non-decreasing,
is changed only by tick events, is checked against K at tick boundaries
before any admission, and never exceeds K; the check's true branch admits
nothing and leaves counter and in-flight flows unchanged, but it cancels the
main context (rather than leaving in-flight flows unaffected). -/
theorem c2_admits_at_most_k :
    (∀ (cfg : Config) (evs : List Ev), 0 < cfg.flowCount →
      (run cfg evs).flowCounter ≤ cfg.flowCount) ∧
    (∀ (cfg : Config) (evs tail : List Ev),
      (run cfg evs).flowCounter ≤ (run cfg (evs ++ tail)).flowCounter) ∧
    (∀ (cfg : Config) (s : SchedState) (e : Ev),
      (∀ now dur, e ≠ Ev.tick now dur) →
      (step cfg s e).flowCounter = s.flowCounter) ∧
    (∀ (cfg : Config) (s : SchedState) (now dur : ℚ),
      0 < cfg.flowCount → cfg.flowCount ≤ s.flowCounter →
      s.tickerStopped = false →
      step cfg s (.tick now dur) = { s with mainCancelled := true }) :=
  ⟨fun cfg evs hK => run_counter_le cfg evs hK,
   run_counter_mono,
   step_nontick_counter,
   tick_at_limit⟩

/-- Witness for C2: the amended theorem applied at concrete inputs — a
three-tick run with `flow_count = 2` admits at most 2 flows; a non-tick event
leaves the counter unchanged; the limit-reached tick only cancels. -/
theorem c2_witness :
    (run ⟨2, 5, 0⟩ [.tick 0 1, .tick 1 1, .tick 2 1]).flowCounter ≤ 2 ∧
    (run ⟨2, 5, 0⟩ [.tick 0 1]).flowCounter ≤
      (run ⟨2, 5, 0⟩ ([.tick 0 1] ++ [.tick 1 1])).flowCounter ∧
    (step ⟨2, 5, 0⟩ initState .timeoutFired).flowCounter =
      initState.flowCounter ∧
    step ⟨1, 5, 0⟩ ⟨1, [], false, false, false⟩ (.tick 3 1) =
      { (⟨1, [], false, false, false⟩ : SchedState) with mainCancelled := true } :=
  ⟨c2_admits_at_most_k.1 ⟨2, 5, 0⟩ _ (by norm_num),
   c2_admits_at_most_k.2.1 ⟨2, 5, 0⟩ [.tick 0 1] [.tick 1 1],
   c2_admits_at_most_k.2.2.1 ⟨2, 5, 0⟩ initState .timeoutFired
     (fun now dur h => Ev.noConfusion h),
   c2_admits_at_most_k.2.2.2 ⟨1, 5, 0⟩ ⟨1, [], false, false, false⟩ 3 1
     (by norm_num) (by norm_num) rfl⟩

/-! ## Claim C3 -/

/-- C3: at every reachable scheduler state the number of in-flight flows is
at most `max_concurrent` (the semaphore capacity); a tick arriving while the
semaphore is full (and the flow-count check does not fire) leaves the state
completely unchanged — the flow is dropped, never queued; and a completion
event releases exactly one slot. -/
theorem c3_concurrency_bound :
    (∀ (cfg : Config) (evs : List Ev),
      (run cfg evs).flows.length ≤ cfg.maxConcurrent) ∧
    (∀ (cfg : Config) (s : SchedState) (now dur : ℚ),
      s.flows.length = cfg.maxConcurrent →
      ¬(0 < cfg.flowCount ∧ cfg.flowCount ≤ s.flowCounter) →
      step cfg s (.tick now dur) = s) ∧
    (∀ (cfg : Config) (s : SchedState) (k : Nat) (o : FlowOutcome),
      k < s.flows.length →
      (step cfg s (.complete k o)).flows.length + 1 = s.flows.length) :=
  ⟨run_flows_le, tick_at_capacity, complete_releases⟩

/-- Witness for C3: a concrete two-tick run with `max_concurrent = 1` keeps
at most one in-flight flow; a tick at capacity is a no-op; completing the
in-flight flow frees its slot. -/
theorem c3_witness :
    (run ⟨0, 1, 0⟩ [.tick 0 9, .tick 1 9]).flows.length ≤ 1 ∧
    step ⟨0, 1, 0⟩ ⟨1, [⟨0, 9⟩], false, false, false⟩ (.tick 1 9) =
      ⟨1, [⟨0, 9⟩], false, false, false⟩ ∧
    (step ⟨0, 1, 0⟩ ⟨1, [⟨0, 9⟩], false, false, false⟩
        (.complete 0 .completed)).flows.length + 1 = 1 :=
  ⟨c3_concurrency_bound.1 ⟨0, 1, 0⟩ _,
   c3_concurrency_bound.2.1 ⟨0, 1, 0⟩ ⟨1, [⟨0, 9⟩], false, false, false⟩ 1 9
     rfl (by norm_num),
   c3_concurrency_bound.2.2 ⟨0, 1, 0⟩ ⟨1, [⟨0, 9⟩], false, false, false⟩ 0
     .completed (by norm_num)⟩

/-! ## Claim C8 -/

/-- C8: when the dial fails, `generateFlow` (either protocol branch) logs and
returns after exactly one dial attempt and zero writes — no retry; the
scheduler's handling of a flow completion is independent of the flow's
outcome (`generateFlow` returns nothing, so no error can reach the
scheduler); and the completion releases exactly the flow's semaphore slot,
leaving the admitted counter and the loop's control flags unchanged. -/
theorem c8_dial_failure_contained :
    (∀ (protocol : String) (env : FlowEnv) (payloadLen mtu iterations : Nat),
      env.dialOk = false →
      generateFlowTrace protocol env payloadLen mtu iterations =
        ⟨1, 0, .dialFailed⟩) ∧
    (∀ (cfg : Config) (s : SchedState) (k : Nat) (o₁ o₂ : FlowOutcome),
      step cfg s (.complete k o₁) = step cfg s (.complete k o₂)) ∧
    (∀ (cfg : Config) (s : SchedState) (k : Nat) (o : FlowOutcome),
      k < s.flows.length →
      (step cfg s (.complete k o)).flows.length + 1 = s.flows.length ∧
      (step cfg s (.complete k o)).flowCounter = s.flowCounter ∧
      (step cfg s (.complete k o)).mainCancelled = s.mainCancelled ∧
      (step cfg s (.complete k o)).tickerStopped = s.tickerStopped) := by
  refine ⟨?_, fun _ _ _ _ _ => rfl, fun cfg s k o hk =>
    ⟨complete_releases cfg s k o hk, rfl, rfl, rfl⟩⟩
  intro protocol env payloadLen mtu iterations h
  simp [generateFlowTrace, generateFlowTCP, generateFlowUDP, h]

/-- Witness for C8: a dial failure of a UDP flow produces one dial attempt,
zero writes and no retries; completing that flow releases its slot and leaves
the scheduler's counter and flags untouched, identically for every outcome. -/
theorem c8_witness :
    generateFlowTrace "udp" ⟨false, true⟩ 5 1500 3 = ⟨1, 0, .dialFailed⟩ ∧
    step ⟨0, 2, 0⟩ ⟨1, [⟨0, 4⟩], false, false, false⟩
        (.complete 0 .dialFailed) =
      step ⟨0, 2, 0⟩ ⟨1, [⟨0, 4⟩], false, false, false⟩
        (.complete 0 .completed) ∧
    ((step ⟨0, 2, 0⟩ ⟨1, [⟨0, 4⟩], false, false, false⟩
        (.complete 0 .dialFailed)).flows.length + 1 = 1 ∧
      (step ⟨0, 2, 0⟩ ⟨1, [⟨0, 4⟩], false, false, false⟩
          (.complete 0 .dialFailed)).flowCounter = 1 ∧
      (step ⟨0, 2, 0⟩ ⟨1, [⟨0, 4⟩], false, false, false⟩
          (.complete 0 .dialFailed)).mainCancelled = false ∧
      (step ⟨0, 2, 0⟩ ⟨1, [⟨0, 4⟩], false, false, false⟩
          (.complete 0 .dialFailed)).tickerStopped = false) :=
  ⟨c8_dial_failure_contained.1 "udp" ⟨false, true⟩ 5 1500 3 rfl,
   c8_dial_failure_contained.2.1 ⟨0, 2, 0⟩ ⟨1, [⟨0, 4⟩], false, false, false⟩
     0 .dialFailed .completed,
   c8_dial_failure_contained.2.2 ⟨0, 2, 0⟩ ⟨1, [⟨0, 4⟩], false, false, false⟩
     0 .dialFailed (by norm_num)⟩

/-! ## Claim C4 -/

/-- C4 counterexample: an iteration of the UDP send loop whose payload
(1501 bytes) exceeds the MTU (1500) executes `continue` without ever reaching
the 100ms-versus-cancellation `select` — even while the flow's context is
already done — and a whole loop run of such iterations never exits early via
cancellation.  This refutes "no iteration proceeds without such a race". -/
theorem c4_counterexample :
    udpIter 1501 1500 ⟨true, true⟩ = .skippedMtu ∧
    reachesCancellationRace (udpIter 1501 1500 ⟨true, true⟩) = false ∧
    udpLoopReturnsEarly 1501 1500 [⟨true, true⟩, ⟨true, true⟩] = false := by
  decide

/-- C4 (amended): a UDP send-loop iteration reaches the 100ms wait raced
against cancellation exactly when the payload fits in the MTU and the write
succeeds; iterations skipped for MTU excess or for a write error `continue`
immediately without racing cancellation, so a loop whose payload exceeds the
MTU never exits early on cancellation (it runs until its duration elapses). -/
theorem c4_race_only_after_send :
    (∀ (payloadLen mtu : Nat) (env : UdpIterEnv),
      reachesCancellationRace (udpIter payloadLen mtu env) =
        (decide (payloadLen ≤ mtu) && env.writeOk)) ∧
    (∀ (payloadLen mtu : Nat) (envs : List UdpIterEnv), mtu < payloadLen →
      udpLoopReturnsEarly payloadLen mtu envs = false) := by
  constructor
  · intro payloadLen mtu env
    rcases env with ⟨w, c⟩
    simp only [udpIter]
    split_ifs <;> cases w <;> cases c <;>
      simp_all [reachesCancellationRace]
  · intro payloadLen mtu envs h
    simp only [udpLoopReturnsEarly, List.any_eq_false]
    intro e _
    simp [udpIter, Nat.lt_of_le_of_lt (Nat.le_refl mtu) h, h]

/-- Witness for C4: at a concrete in-MTU iteration the race is reached, and a
concrete over-MTU loop never returns early. -/
theorem c4_witness :
    reachesCancellationRace (udpIter 100 1500 ⟨true, false⟩) =
      (decide (100 ≤ 1500) && true) ∧
    udpLoopReturnsEarly 1501 1500 [⟨true, true⟩] = false :=
  ⟨c4_race_only_after_send.1 100 1500 ⟨true, false⟩,
   c4_race_only_after_send.2 1501 1500 [⟨true, true⟩] (by norm_num)⟩

/-! ## Claim C5 -/

/-- C5: the payload size is the fixed `payload_size` when positive; otherwise,
when `min_payload_size > 0` and `max_payload_size > min_payload_size`, a value
drawn uniformly from `[min_payload_size, max_payload_size]` (every value of
the range is within bounds, and every value of the range is attained by some
draw); otherwise the default 5.  The transmitted payload is the first `n`
bytes of the cache when `n` is at most its capacity, else the entire cache
buffer — capped, never over-allocated. -/
theorem c5_payload_size_and_slice :
    (∀ (pz mn mx : Int) (intN : Int → Int), 0 < pz →
      getPayloadSize pz mn mx intN = pz) ∧
    (∀ (pz mn mx : Int) (intN : Int → Int), pz ≤ 0 → 0 < mn → mn < mx →
      (∀ n, 0 < n → 0 ≤ intN n ∧ intN n < n) →
      mn ≤ getPayloadSize pz mn mx intN ∧ getPayloadSize pz mn mx intN ≤ mx) ∧
    (∀ (pz mn mx v : Int), pz ≤ 0 → 0 < mn → mn < mx → mn ≤ v → v ≤ mx →
      ∃ intN : Int → Int, (∀ n, 0 < n → 0 ≤ intN n ∧ intN n < n) ∧
        getPayloadSize pz mn mx intN = v) ∧
    (∀ (pz mn mx : Int) (intN : Int → Int), pz ≤ 0 → ¬(0 < mn ∧ mn < mx) →
      getPayloadSize pz mn mx intN = 5) ∧
    (∀ (cache : List Nat) (n : Int), n ≤ (cache.length : Int) →
      slicePayload cache n = cache.take n.toNat) ∧
    (∀ (cache : List Nat) (n : Int), (cache.length : Int) < n →
      slicePayload cache n = cache) := by
  refine ⟨?_, ?_, ?_, ?_, ?_, ?_⟩
  · intro pz mn mx intN hpz
    simp [getPayloadSize, hpz]
  · intro pz mn mx intN hpz hmn hlt hbound
    have hb := hbound (mx - mn + 1) (by omega)
    simp only [getPayloadSize, if_neg (by omega : ¬pz > 0),
      if_pos (by simp [hmn, hlt] : (decide (mn > 0) && decide (mx > mn)) = true)]
    omega
  · intro pz mn mx v hpz hmn hlt hv1 hv2
    refine ⟨fun n => if v - mn < n then v - mn else 0, ?_, ?_⟩
    · intro n hn
      dsimp only
      split_ifs with h <;> omega
    · simp only [getPayloadSize, if_neg (by omega : ¬pz > 0),
        if_pos (by simp [hmn, hlt] : (decide (mn > 0) && decide (mx > mn)) = true),
        if_pos (by omega : v - mn < mx - mn + 1)]
      omega
  · intro pz mn mx intN hpz hno
    simp only [getPayloadSize, if_neg (by omega : ¬pz > 0)]
    rw [if_neg]
    simp only [Bool.and_eq_true, decide_eq_true_eq, not_and]
    intro h1 h2
    exact hno ⟨h1, h2⟩
  · intro cache n hn
    simp only [slicePayload]
    rw [if_neg (by omega)]
  · intro cache n hn
    simp only [slicePayload]
    rw [if_pos (by omega)]
    simp

/-- Witness for C5: concrete instances of each conjunct — fixed size 7; a
range draw inside `[3, 6]`; a draw attaining 5 in `[3, 6]`; the default 5
when the range is unset; and both slicing regimes on a 3-byte cache. -/
theorem c5_witness :
    getPayloadSize 7 0 0 (fun _ => 0) = 7 ∧
    (3 ≤ getPayloadSize 0 3 6 (fun _ => 0) ∧
      getPayloadSize 0 3 6 (fun _ => 0) ≤ 6) ∧
    (∃ intN : Int → Int, (∀ n, 0 < n → 0 ≤ intN n ∧ intN n < n) ∧
      getPayloadSize 0 3 6 intN = 5) ∧
    getPayloadSize 0 0 9 (fun _ => 2) = 5 ∧
    slicePayload [10, 20, 30] 2 = [10, 20, 30].take ((2 : Int)).toNat ∧
    slicePayload [10, 20, 30] 9 = [10, 20, 30] :=
  ⟨c5_payload_size_and_slice.1 7 0 0 (fun _ => 0) (by norm_num),
   c5_payload_size_and_slice.2.1 0 3 6 (fun _ => 0) (by norm_num) (by norm_num)
     (by norm_num) (fun n hn => ⟨le_refl 0, hn⟩),
   c5_payload_size_and_slice.2.2.1 0 3 6 5 (by norm_num) (by norm_num)
     (by norm_num) (by norm_num) (by norm_num),
   c5_payload_size_and_slice.2.2.2.1 0 0 9 (fun _ => 2) (by norm_num)
     (by norm_num),
   c5_payload_size_and_slice.2.2.2.2.1 [10, 20, 30] 2 (by norm_num),
   c5_payload_size_and_slice.2.2.2.2.2 [10, 20, 30] 9 (by norm_num)⟩

/-! ## Claim C6 -/

/-- C6: in constant-flow mode every flow's duration is
`max_concurrent / rate`, independently of the random draw; the
below-`min_duration` condition only controls a warning (the duration is used
unchanged, the scheduler proceeds); otherwise the duration is
`min_duration + r * (max_duration - min_duration)` with `r` drawn from
`[0, 1)`, which lies in `[min_duration, max_duration]` whenever the range is
ordered; in particular `min_duration = max_duration` yields the same constant
duration for every draw. -/
theorem c6_duration :
    (∀ (mc : Int) (rate minD maxD r : ℚ),
      flowDuration true mc rate minD maxD r = (mc : ℚ) / rate) ∧
    (∀ (mc : Int) (rate minD : ℚ),
      (constantFlowWarned true mc rate minD = true ↔ (mc : ℚ) / rate < minD)) ∧
    (∀ (mc : Int) (rate minD maxD r : ℚ),
      constantFlowWarned true mc rate minD = true →
      flowDuration true mc rate minD maxD r = (mc : ℚ) / rate) ∧
    (∀ (mc : Int) (rate minD maxD r : ℚ), 0 ≤ r → r < 1 → minD ≤ maxD →
      minD ≤ flowDuration false mc rate minD maxD r ∧
      flowDuration false mc rate minD maxD r ≤ maxD) ∧
    (∀ (mc : Int) (rate minD r : ℚ),
      flowDuration false mc rate minD minD r = minD) := by
  refine ⟨?_, ?_, ?_, ?_, ?_⟩
  · intro mc rate minD maxD r
    simp [flowDuration]
  · intro mc rate minD
    simp [constantFlowWarned]
  · intro mc rate minD maxD r _
    simp [flowDuration]
  · intro mc rate minD maxD r hr0 hr1 hord
    simp only [flowDuration, if_neg (by simp : ¬(false = true))]
    constructor
    · nlinarith
    · nlinarith
  · intro mc rate minD r
    simp [flowDuration]

/-- Witness for C6: with `max_concurrent = 10` and `rate = 5`, every flow's
duration is 2 in constant-flow mode (warned when `min_duration = 3` since
`2 < 3`, yet the duration is still 2); a non-constant draw with
`r = 1/2` over `[1, 3]` lies in `[1, 3]`; and a degenerate range `[4, 4]`
yields 4. -/
theorem c6_witness :
    flowDuration true 10 5 1 3 (1/2) = (10 : ℚ) / 5 ∧
    (constantFlowWarned true 10 5 3 = true ↔ (10 : ℚ) / 5 < 3) ∧
    (constantFlowWarned true 10 5 3 = true →
      flowDuration true 10 5 3 9 (1/2) = (10 : ℚ) / 5) ∧
    (1 ≤ flowDuration false 10 5 1 3 (1/2) ∧
      flowDuration false 10 5 1 3 (1/2) ≤ 3) ∧
    flowDuration false 10 5 4 4 (1/2) = 4 :=
  ⟨c6_duration.1 10 5 1 3 (1/2),
   c6_duration.2.1 10 5 3,
   c6_duration.2.2.1 10 5 3 9 (1/2),
   c6_duration.2.2.2.1 10 5 1 3 (1/2) (by norm_num) (by norm_num) (by norm_num),
   c6_duration.2.2.2.2 10 5 4 (1/2)⟩

/-! ## Claim C7 -/

/-- C7: the port selector is a pure function of its inputs — re-invoking it
with the same TCP list, UDP list and protocol filter yields the same ordered
sequence — and that sequence is exactly all TCP entries in configured order
(when the filter includes tcp) followed by all UDP entries in configured
order (when the filter includes udp); `parsePorts` itself preserves the
configured order (it is the in-order filter of the valid ports). -/
theorem c7_port_selector :
    (∀ (protocol : String) (tcp udp : List Int),
      buildAvailablePorts protocol tcp udp =
        buildAvailablePorts protocol tcp udp) ∧
    (∀ (protocol : String) (tcp udp : List Int),
      buildAvailablePorts protocol tcp udp =
        (if protocol == "tcp" || protocol == "both" then
          tcp.map (fun p => (⟨"tcp", p⟩ : ProtocolPort)) else [])
        ++ (if protocol == "udp" || protocol == "both" then
          udp.map (fun p => (⟨"udp", p⟩ : ProtocolPort)) else [])) ∧
    (∀ (tokens : List (Option Int)),
      parsePorts tokens =
        (tokens.filterMap id).filter (fun p => p > 0 && p ≤ 65535)) :=
  ⟨fun _ _ _ => rfl, buildAvailablePorts_eq, parsePorts_eq⟩

/-! ## Claim C10 -/

/-- C10: with `payload_size` unset (0) and `min_payload_size =
max_payload_size > 0`, `getPayloadSize` returns the default 5 rather than the
configured value: the dynamic-range branch requires `max_payload_size`
strictly greater than `min_payload_size` and `min_payload_size` positive, and
whenever it is taken the result is `min + IntN(max - min + 1)`. -/
theorem c10_degenerate_range_defaults :
    (∀ (mn : Int) (intN : Int → Int), 0 < mn →
      getPayloadSize 0 mn mn intN = 5) ∧
    (∀ (pz mn mx : Int) (intN : Int → Int), pz ≤ 0 → ¬(0 < mn ∧ mn < mx) →
      getPayloadSize pz mn mx intN = 5) ∧
    (∀ (pz mn mx : Int) (intN : Int → Int), pz ≤ 0 → 0 < mn → mn < mx →
      getPayloadSize pz mn mx intN = mn + intN (mx - mn + 1)) := by
  refine ⟨?_, ?_, ?_⟩
  · intro mn intN hmn
    simp [getPayloadSize]
  · intro pz mn mx intN hpz hno
    simp only [getPayloadSize, if_neg (by omega : ¬pz > 0)]
    rw [if_neg]
    simp only [Bool.and_eq_true, decide_eq_true_eq, not_and]
    intro h1 h2
    exact hno ⟨h1, h2⟩
  · intro pz mn mx intN hpz hmn hlt
    simp only [getPayloadSize, if_neg (by omega : ¬pz > 0),
      if_pos (by simp [hmn, hlt] : (decide (mn > 0) && decide (mx > mn)) = true)]

/-- Witness for C10: with `payload_size = 0` and the configured range
`[8, 8]`, the selected size is 5, not 8; with range `[8, 9]` the range branch
fires. -/
theorem c10_witness :
    getPayloadSize 0 8 8 (fun _ => 0) = 5 ∧
    getPayloadSize 0 8 8 (fun _ => 0) = 5 ∧
    getPayloadSize 0 8 9 (fun _ => 1) = 8 + (fun (_ : Int) => (1 : Int)) (9 - 8 + 1) :=
  ⟨c10_degenerate_range_defaults.1 8 (fun _ => 0) (by norm_num),
   c10_degenerate_range_defaults.2.1 0 8 8 (fun _ => 0) (by norm_num)
     (by norm_num),
   c10_degenerate_range_defaults.2.2 0 8 9 (fun _ => 1) (by norm_num)
     (by norm_num) (by norm_num)⟩

/-! ## Claim C9 -/

/-- C9 counterexample: the seed is fixed, but the single `rand.Rand` is
shared, unsynchronized, between the concurrently running admission
goroutines.  Two runs with the same configuration (one available port,
payload range `[1, 256]`) but different goroutine interleavings — both
respecting every flow's own program order — assign different stream
positions to flow 0's payload-size draw and select different payload sizes
(`1 + 219` versus `1 + 210`).  Hence the sequence of selections is not
determined by the configuration alone, refuting "fully deterministic and
identical across restarts". -/
theorem c9_counterexample :
    schedOrdered [.portDraw 0, .durDraw 0, .sizeDraw 0] 0 = true ∧
    schedOrdered [.portDraw 1, .durDraw 1, .sizeDraw 1,
      .portDraw 0, .durDraw 0, .sizeDraw 0] 0 = true ∧
    schedOrdered [.portDraw 1, .durDraw 1, .sizeDraw 1,
      .portDraw 0, .durDraw 0, .sizeDraw 0] 1 = true ∧
    flowPayloadSizeAt [.portDraw 0, .durDraw 0, .sizeDraw 0] 0 ≠
      flowPayloadSizeAt [.portDraw 1, .durDraw 1, .sizeDraw 1,
        .portDraw 0, .durDraw 0, .sizeDraw 0] 0 := by
  decide

/-- C9 (amended): the RNG seed is the fixed constant `PCG(0, 0)`, so the
payload-cache contents are identical across restarts and, for any fixed
interleaving of the concurrent draws against the shared source, the
selections of a restarted run are identical to the first run's; what a flow
actually selects is the PCG stream value at the position its draw occupies
in the interleaving — a function of the interleaving as well as the
configuration, not of the configuration alone. -/
theorem c9_fixed_seed_restart_determinism :
    (∀ i : Nat, payloadCacheByteRestart i = payloadCacheByte i) ∧
    (∀ (sched : List Draw) (i : Nat),
      flowPayloadSizeAtRestart sched i = flowPayloadSizeAt sched i) ∧
    (∀ (sched : List Draw) (i p : Nat),
      drawPosition sched (.sizeDraw i) = some p →
      flowPayloadSizeAt sched i = some (1 + intNPow2 (pcgU64 p) 256)) :=
  ⟨fun _ => rfl, fun _ _ => rfl,
   fun sched i p h => by simp [flowPayloadSizeAt, h]⟩

/-- Witness for C9: the amended theorem at concrete inputs — cache byte 0 is
restart-identical, and under the singleton schedule flow 0's size draw sits
at stream position 0. -/
theorem c9_witness :
    payloadCacheByteRestart 0 = payloadCacheByte 0 ∧
    flowPayloadSizeAtRestart [Draw.sizeDraw 0] 0 =
      flowPayloadSizeAt [Draw.sizeDraw 0] 0 ∧
    flowPayloadSizeAt [Draw.sizeDraw 0] 0 =
      some (1 + intNPow2 (pcgU64 0) 256) :=
  ⟨c9_fixed_seed_restart_determinism.1 0,
   c9_fixed_seed_restart_determinism.2.1 [Draw.sizeDraw 0] 0,
   c9_fixed_seed_restart_determinism.2.2 [Draw.sizeDraw 0] 0 0 (by decide)⟩

end FlowGen
